import Mathlib

/-!
Verification of the TeachWise backend (src/simple_app.py) against its
natural-language specification.  The Python service is shallowly embedded:
Python `str` values become `String` (lists of characters where character-level
reasoning is needed), the lazily initialised Gemini model handle becomes an
`Option` of a pure text-generation stub, and each service operation returns an
`Except` result paired with the number of outbound gateway calls it performed.
-/

/-! ## Python string primitives -/

/-- Whitespace characters removed by Python `str.strip()` (ASCII subset). -/
def pyIsSpace (c : Char) : Bool :=
  c = ' ' || c = '\t' || c = '\n' || c = '\r' || c = '\x0b' || c = '\x0c'

/-- Python `str.strip()` on a character list: drop whitespace from both ends. -/
def stripChars (l : List Char) : List Char :=
  ((l.dropWhile pyIsSpace).reverse.dropWhile pyIsSpace).reverse

/-- Python `text.strip()`. -/
def pyStrip (s : String) : String := ⟨stripChars s.data⟩

/-- Body of `GeminiService._clean_json_response` (simple_app.py lines 136-148):
strip, remove a leading markdown fence (either a fence tagged json, dropping 7
characters, or a plain fence, dropping 3), remove a trailing fence (dropping
the last 3 characters), then strip again. -/
def cleanJsonChars (l : List Char) : List Char :=
  let text := stripChars l
  let text :=
    if "```json".data.isPrefixOf text then text.drop 7
    else if "```".data.isPrefixOf text then text.drop 3
    else text
  let text :=
    if "```".data.isSuffixOf text then text.take (text.length - 3)
    else text
  stripChars text

/-- `GeminiService._clean_json_response` as a `String` transformer. -/
def clean_json_response (s : String) : String := ⟨cleanJsonChars s.data⟩

/-- Python `str.title()` on characters: a letter is uppercased when the
previous character is not a letter, lowercased otherwise. -/
def pyTitleChars : Bool → List Char → List Char
  | _, [] => []
  | prevAlpha, c :: cs =>
    (if c.isAlpha then (if prevAlpha then c.toLower else c.toUpper) else c)
      :: pyTitleChars c.isAlpha cs

/-- Python `str.title()`. -/
def pyTitle (s : String) : String := ⟨pyTitleChars false s.data⟩

/-- Python list indexing `l[i]`: non-negative indices are positional,
negative indices count from the end, anything else raises IndexError
(modelled as `none`). -/
def pyIndex {α : Type} (l : List α) (i : Int) : Option α :=
  if 0 ≤ i then l.get? i.toNat
  else if 0 ≤ i + l.length then l.get? (i + l.length).toNat
  else none

/-- Python truthiness of an optional string (`if not question:` is taken for
`None` and for the empty string). -/
def pyTruthy : Option String → Bool
  | none => false
  | some s => !s.isEmpty

/-! ## Request and data model (simple_app.py lines 42-78)

`Scenario` and `ChatMessage` are plain dictionaries in the source; they are
modelled as records with the fields the code reads.  The `.get` defaults the
code supplies for absent keys never fire on these well-formed records. -/

/-- Pydantic model `StudentPersona` with its field defaults. -/
structure StudentPersona where
  conceptual_readiness : Int := 5
  metacognitive_awareness : Int := 5
  persistence : Int := 5
  communication_style : String := "verbal"
  confidence_level : Int := 5

/-- One entry of `chatHistory`: a dict with keys sender and message. -/
structure ChatMessage where
  sender : String
  message : String

/-- The student block of a generated scenario. -/
structure StudentInfo where
  name : String
  background : String
  performanceLevel : String
  actualMisconception : String
  initialResponse : String

/-- A generated teaching scenario, echoed back into later calls. -/
structure Scenario where
  student : StudentInfo
  misconceptionOptions : List String
  correctMisconceptionIndex : Int
  topic : String
  difficulty : String
  persona : StudentPersona
  practiceQuestion : String

/-- Pydantic model `QuestionGenerationRequest`. -/
structure QuestionGenerationRequest where
  gradeLevel : String
  subject : String
  learningOutcomes : String
  concepts : String
  language : String := "english"

/-- Pydantic model `ScenarioRequest`. -/
structure ScenarioRequest where
  gradeLevel : String
  subject : String
  learningOutcomes : String
  concepts : String
  question : Option String := none
  studentPersona : StudentPersona := {}
  language : String := "english"

/-- Pydantic model `StudentResponseRequest`. -/
structure StudentResponseRequest where
  scenario : Scenario
  teacherMessage : String
  chatHistory : List ChatMessage
  language : String := "english"

/-- Pydantic model `EvaluationRequest`. -/
structure EvaluationRequest where
  scenario : Scenario
  selectedMisconception : Int
  intervention : String
  chatHistory : List ChatMessage
  selectedStrategy : Option String := none
  language : String := "english"

/-! ## Persona behavioural directives

These are the three-way conditional expressions embedded in the
`persona_guidance` f-strings of `generate_student_response`
(simple_app.py lines 420-423 Chinese, 464-467 English). -/

/-- English hesitant directive (confidence at most 3). -/
def hesitant_directive : String :=
  "Be hesitant, use \x27maybe\x27, \x27I think\x27, ask for validation"

/-- English assertive directive (confidence at least 8). -/
def assertive_directive : String :=
  "Be assertive and state opinions clearly"

/-- English neutral confidence directive. -/
def moderate_confidence_directive : String :=
  "Show moderate confidence"

/-- Confidence conditional of the English `persona_guidance` (line 464). -/
def confidence_directive (c : Int) : String :=
  if c ≤ 3 then hesitant_directive
  else if 8 ≤ c then assertive_directive
  else moderate_confidence_directive

/-- English low-persistence directive. -/
def give_up_directive : String :=
  "Give up quickly, say \x27I don\x27t know\x27 often"

/-- English high-persistence directive. -/
def keep_trying_directive : String :=
  "Keep trying, ask follow-up questions"

/-- English neutral persistence directive. -/
def average_persistence_directive : String :=
  "Show average persistence"

/-- Persistence conditional of the English `persona_guidance` (line 465). -/
def persistence_directive (p : Int) : String :=
  if p ≤ 3 then give_up_directive
  else if 8 ≤ p then keep_trying_directive
  else average_persistence_directive

/-- English low-metacognition directive. -/
def unaware_directive : String :=
  "Don\x27t recognize own mistakes or confusion"

/-- English high-metacognition directive. -/
def aware_directive : String :=
  "Say things like \x27I\x27m confused about...\x27 or \x27I think I understand but...\x27"

/-- English neutral metacognition directive. -/
def moderate_metacognitive_directive : String :=
  "Show moderate metacognitive awareness"

/-- Metacognition conditional of the English `persona_guidance` (line 466). -/
def metacognitive_directive (m : Int) : String :=
  if m ≤ 3 then unaware_directive
  else if 8 ≤ m then aware_directive
  else moderate_metacognitive_directive

/-- Communication-style conditional of the English `persona_guidance`
(line 467): matched by direct enumeration. -/
def communication_directive (style : String) : String :=
  if style = "visual" then "Ask for diagrams/pictures, describe spatial relationships"
  else if style = "hands_on" then "Want to try things, mention physical examples"
  else "Prefer verbal explanations, ask for definitions"

/-- Confidence conditional of the Chinese `persona_guidance` (line 420). -/
def confidence_directive_zh (c : Int) : String :=
  if c ≤ 3 then "猶豫不決，使用「可能」、「我想」，尋求確認"
  else if 8 ≤ c then "自信並清楚表達意見"
  else "表現中等信心"

/-- Persistence conditional of the Chinese `persona_guidance` (line 421). -/
def persistence_directive_zh (p : Int) : String :=
  if p ≤ 3 then "容易放棄，經常說「我不知道」"
  else if 8 ≤ p then "持續嘗試，提出後續問題"
  else "表現平均堅持度"

/-- Metacognition conditional of the Chinese `persona_guidance` (line 422). -/
def metacognitive_directive_zh (m : Int) : String :=
  if m ≤ 3 then "不認識自己的錯誤或困惑"
  else if 8 ≤ m then "會說「我對...感到困惑」或「我想我明白但是...」"
  else "表現中等後設認知意識"

/-- Communication-style conditional of the Chinese `persona_guidance`
(line 423). -/
def communication_directive_zh (style : String) : String :=
  if style = "visual" then "要求圖表/圖片，描述空間關係"
  else if style = "hands_on" then "想要嘗試事物，提及實際例子"
  else "偏好口語解釋，詢問定義"
/-! ## Prompt templates (verbatim from simple_app.py) -/

/-- Chinese-language directive block returned by traditional_chinese requests (lines 124-133). -/
def chinese_directive_body : String :=
  "\n"
    ++ "            **[繁體中文模式]** 你扮演一位AI教學助手，你必須以繁體中文回答所有問題。\n"
    ++ "            \n"
    ++ "            重要指示：\n"
    ++ "            1. 回答主體必須使用繁體中文（台灣文），不可使用其他語言\n"
    ++ "            2. 不要使用拼音或簡體字\n"
    ++ "            3. 保持專業的教學語調\n"
    ++ "            4. 確保所有回覆都是繁體中文\n"
    ++ "            \n"
    ++ "            "

/-- Traditional-Chinese question-generation template (lines 159-182), rendered by `.format`. -/
def question_template_zh (grade_level subject learning_outcomes concepts : String) : String :=
  "\n"
    ++ "            為 " ++ grade_level ++ " " ++ subject ++ " 課程生成一個高質量的練習問題。\n"
    ++ "            \n"
    ++ "            學習成果：" ++ learning_outcomes ++ "\n"
    ++ "            關鍵概念：" ++ concepts ++ "\n"
    ++ "            \n"
    ++ "            創建一個問題，要求：\n"
    ++ "            1. 是開放式的，鼓勵學生思考\n"
    ++ "            2. 允許多種方法或解釋\n"
    ++ "            3. 可以揭示關於概念的常見誤解\n"
    ++ "            4. 適合 " ++ grade_level ++ " 年級水平\n"
    ++ "            5. 與指定的學習成果相關\n"
    ++ "            \n"
    ++ "            問題應該設計來幫助教師診斷學生理解並識別誤解。\n"
    ++ "            \n"
    ++ "            以這個JSON格式回覆：\n"
    ++ "            \x7b" ++ "\n"
    ++ "                \"question\": \"練習問題\",\n"
    ++ "                \"rationale\": \"為什麼這個問題對揭示誤解有效\",\n"
    ++ "                \"expectedMisconceptions\": [\"常見誤解1\", \"常見誤解2\", \"常見誤解3\"]\n"
    ++ "            \x7d" ++ "\n"
    ++ "            \n"
    ++ "            僅回覆有效的JSON，不要其他文字或markdown格式。\n"
    ++ "            "

/-- English question-generation template (lines 184-207), rendered by `.format`. -/
def question_template_en (grade_level subject learning_outcomes concepts : String) : String :=
  "\n"
    ++ "            Generate a high-quality practice question for a " ++ grade_level ++ " " ++ subject ++ " class.\n"
    ++ "            \n"
    ++ "            Learning Outcomes: " ++ learning_outcomes ++ "\n"
    ++ "            Key Concepts: " ++ concepts ++ "\n"
    ++ "            \n"
    ++ "            Create a question that:\n"
    ++ "            1. Is open-ended and encourages student thinking\n"
    ++ "            2. Allows for multiple approaches or explanations\n"
    ++ "            3. Can reveal common misconceptions about the concepts\n"
    ++ "            4. Is age-appropriate for " ++ grade_level ++ " level\n"
    ++ "            5. Connects to the specified learning outcomes\n"
    ++ "            \n"
    ++ "            The question should be designed to help teachers diagnose student understanding and identify misconceptions.\n"
    ++ "            \n"
    ++ "            Return response in this JSON format:\n"
    ++ "            \x7b" ++ "\n"
    ++ "                \"question\": \"the practice question\",\n"
    ++ "                \"rationale\": \"why this question is effective for revealing misconceptions\",\n"
    ++ "                \"expectedMisconceptions\": [\"common misconception 1\", \"common misconception 2\", \"common misconception 3\"]\n"
    ++ "            \x7d" ++ "\n"
    ++ "            \n"
    ++ "            Return ONLY valid JSON, no other text or markdown formatting.\n"
    ++ "            "

/-- Chinese persona description f-string of `generate_scenario` (lines 239-257). -/
def persona_description_zh (persona : StudentPersona) : String :=
  "\n"
    ++ "            學生特徵：\n"
    ++ "            - 概念準備度：" ++ (toString persona.conceptual_readiness) ++ "/10 (先前知識強度)\n"
    ++ "            - 後設認知意識：" ++ (toString persona.metacognitive_awareness) ++ "/10 (識別自己理解/困惑的能力)\n"
    ++ "            - 堅持度：" ++ (toString persona.persistence) ++ "/10 (克服困難的意願)\n"
    ++ "            - 溝通風格：" ++ persona.communication_style ++ " (偏好" ++ persona.communication_style ++ "解釋)\n"
    ++ "            - 信心水平：" ++ (toString persona.confidence_level) ++ "/10 (分享思考和提問的意願)\n"
    ++ "            \n"
    ++ "            行為指導：\n"
    ++ "            - 如果信心低 (1-3)：學生猶豫不決，尋求確認，說「我想可能...」\n"
    ++ "            - 如果信心高 (8-10)：學生自信，明確表達意見\n"
    ++ "            - 如果堅持度低 (1-3)：學生容易放棄，經常說「我不知道」\n"
    ++ "            - 如果堅持度高 (8-10)：學生持續嘗試，提出後續問題\n"
    ++ "            - 如果後設認知意識低 (1-3)：學生不認識自己的錯誤或困惑\n"
    ++ "            - 如果後設認知意識高 (8-10)：學生會說「我對...感到困惑」或「我想我明白但是...」\n"
    ++ "            - 如果溝通風格是「視覺」：學生要求圖片/圖表，描述空間關係\n"
    ++ "            - 如果溝通風格是「動手」：學生想要嘗試事物，提及實際例子\n"
    ++ "            - 如果溝通風格是「口語」：學生偏好解釋，詢問定義\n"
    ++ "            "

/-- Traditional-Chinese scenario-generation template (lines 259-303). -/
def scenario_template_zh (grade_level subject learning_outcomes concepts question persona_description : String) (persona : StudentPersona) : String :=
  "\n"
    ++ "            為 " ++ grade_level ++ " " ++ subject ++ " 課程創建一個現實的教學情境。\n"
    ++ "            \n"
    ++ "            學習成果：" ++ learning_outcomes ++ "\n"
    ++ "            關鍵概念：" ++ concepts ++ "\n"
    ++ "            練習問題：" ++ question ++ "\n"
    ++ "            \n"
    ++ "            " ++ persona_description ++ "\n"
    ++ "            \n"
    ++ "            生成一個會對這個具體問題回應現實誤解的學生。\n"
    ++ "            學生應該有清晰、邏輯性（但不正確）的理解，導致錯誤答案。\n"
    ++ "            \n"
    ++ "            以這個JSON格式生成回應：\n"
    ++ "            \x7b" ++ "\n"
    ++ "                \"student\": \x7b" ++ "\n"
    ++ "                    \"name\": \"現實的名字\",\n"
    ++ "                    \"background\": \"反映學生人格特徵的簡短背景\",\n"
    ++ "                    \"performanceLevel\": \"掙扎/平均/優秀\",\n"
    ++ "                    \"actualMisconception\": \"這個學生對概念的具體誤解\",\n"
    ++ "                    \"initialResponse\": \"學生如何回應練習問題 - 應顯示他們的誤解和人格特徵\"\n"
    ++ "                \x7d" ++ ",\n"
    ++ "                \"misconceptionOptions\": [\n"
    ++ "                    \"正確的誤解（這個學生的實際問題）\",\n"
    ++ "                    \"似是而非但不正確的誤解1\",\n"
    ++ "                    \"似是而非但不正確的誤解2\",\n"
    ++ "                    \"似是而非但不正確的誤解3\"\n"
    ++ "                ],\n"
    ++ "                \"correctMisconceptionIndex\": 0,\n"
    ++ "                \"topic\": \"討論的具體主題\",\n"
    ++ "                \"difficulty\": \"初級/中級/進階\",\n"
    ++ "                \"persona\": \x7b" ++ "\n"
    ++ "                    \"conceptual_readiness\": " ++ (toString persona.conceptual_readiness) ++ ",\n"
    ++ "                    \"metacognitive_awareness\": " ++ (toString persona.metacognitive_awareness) ++ ",\n"
    ++ "                    \"persistence\": " ++ (toString persona.persistence) ++ ",\n"
    ++ "                    \"communication_style\": \"" ++ persona.communication_style ++ "\",\n"
    ++ "                    \"confidence_level\": " ++ (toString persona.confidence_level) ++ "\n"
    ++ "                \x7d" ++ ",\n"
    ++ "                \"practiceQuestion\": \"" ++ question ++ "\"\n"
    ++ "            \x7d" ++ "\n"
    ++ "            \n"
    ++ "            確保學生的初始回應直接回答練習問題並揭示他們的誤解。\n"
    ++ "            回應也應該清楚地反映他們的人格特徵。\n"
    ++ "            \n"
    ++ "            僅回覆有效的JSON，不要其他文字或markdown格式。\n"
    ++ "            "

/-- English persona description f-string of `generate_scenario` (lines 305-323). -/
def persona_description_en (persona : StudentPersona) : String :=
  "\n"
    ++ "            Student Characteristics:\n"
    ++ "            - Conceptual Readiness: " ++ (toString persona.conceptual_readiness) ++ "/10 (prior knowledge strength)\n"
    ++ "            - Metacognitive Awareness: " ++ (toString persona.metacognitive_awareness) ++ "/10 (ability to recognize own understanding/confusion)\n"
    ++ "            - Persistence: " ++ (toString persona.persistence) ++ "/10 (willingness to work through difficulty)\n"
    ++ "            - Communication Style: " ++ persona.communication_style ++ " (prefers " ++ persona.communication_style ++ " explanations)\n"
    ++ "            - Confidence Level: " ++ (toString persona.confidence_level) ++ "/10 (willingness to share thinking and ask questions)\n"
    ++ "            \n"
    ++ "            Behavioral Guidelines:\n"
    ++ "            - If confidence is low (1-3): Student is hesitant, asks for validation, says \"I think maybe...\" \n"
    ++ "            - If confidence is high (8-10): Student is assertive, states opinions confidently\n"
    ++ "            - If persistence is low (1-3): Student gives up quickly, says \"I don\x27t know\" often\n"
    ++ "            - If persistence is high (8-10): Student keeps trying, asks follow-up questions\n"
    ++ "            - If metacognitive awareness is low (1-3): Student doesn\x27t recognize their mistakes or confusion\n"
    ++ "            - If metacognitive awareness is high (8-10): Student says things like \"I\x27m confused about...\" or \"I think I understand but...\"\n"
    ++ "            - If communication style is \"visual\": Student asks for pictures/diagrams, describes spatial relationships\n"
    ++ "            - If communication style is \"hands_on\": Student wants to try things, mentions physical examples\n"
    ++ "            - If communication style is \"verbal\": Student prefers explanations, asks for definitions\n"
    ++ "            "

/-- English scenario-generation template (lines 325-369). -/
def scenario_template_en (grade_level subject learning_outcomes concepts question persona_description : String) (persona : StudentPersona) : String :=
  "\n"
    ++ "            Create a realistic teaching scenario for a " ++ grade_level ++ " " ++ subject ++ " class.\n"
    ++ "            \n"
    ++ "            Learning Outcomes: " ++ learning_outcomes ++ "\n"
    ++ "            Key Concepts: " ++ concepts ++ "\n"
    ++ "            Practice Question: " ++ question ++ "\n"
    ++ "            \n"
    ++ "            " ++ persona_description ++ "\n"
    ++ "            \n"
    ++ "            Generate a student who will respond to this specific question with a realistic misconception.\n"
    ++ "            The student should have a clear, logical (but incorrect) understanding that leads to their wrong answer.\n"
    ++ "            \n"
    ++ "            Generate a response in this JSON format:\n"
    ++ "            \x7b" ++ "\n"
    ++ "                \"student\": \x7b" ++ "\n"
    ++ "                    \"name\": \"realistic first name\",\n"
    ++ "                    \"background\": \"brief background that reflects the student\x27s persona characteristics\",\n"
    ++ "                    \"performanceLevel\": \"struggling/average/advanced\",\n"
    ++ "                    \"actualMisconception\": \"the specific misconception this student has about the concepts\",\n"
    ++ "                    \"initialResponse\": \"how the student responds to the practice question - should show their misconception and persona traits\"\n"
    ++ "                \x7d" ++ ",\n"
    ++ "                \"misconceptionOptions\": [\n"
    ++ "                    \"The correct misconception (this student\x27s actual issue)\",\n"
    ++ "                    \"Plausible but incorrect misconception 1\",\n"
    ++ "                    \"Plausible but incorrect misconception 2\", \n"
    ++ "                    \"Plausible but incorrect misconception 3\"\n"
    ++ "                ],\n"
    ++ "                \"correctMisconceptionIndex\": 0,\n"
    ++ "                \"topic\": \"specific topic being discussed\",\n"
    ++ "                \"difficulty\": \"beginner/intermediate/advanced\",\n"
    ++ "                \"persona\": \x7b" ++ "\n"
    ++ "                    \"conceptual_readiness\": " ++ (toString persona.conceptual_readiness) ++ ",\n"
    ++ "                    \"metacognitive_awareness\": " ++ (toString persona.metacognitive_awareness) ++ ",\n"
    ++ "                    \"persistence\": " ++ (toString persona.persistence) ++ ",\n"
    ++ "                    \"communication_style\": \"" ++ persona.communication_style ++ "\",\n"
    ++ "                    \"confidence_level\": " ++ (toString persona.confidence_level) ++ "\n"
    ++ "                \x7d" ++ ",\n"
    ++ "                \"practiceQuestion\": \"" ++ question ++ "\"\n"
    ++ "            \x7d" ++ "\n"
    ++ "            \n"
    ++ "            Make sure the student\x27s initial response directly addresses the practice question and reveals their misconception.\n"
    ++ "            The response should also clearly reflect their persona characteristics.\n"
    ++ "            \n"
    ++ "            Return ONLY valid JSON, no other text or markdown formatting.\n"
    ++ "            "

/-- Chinese persona guidance f-string of `generate_student_response` (lines 411-424). -/
def persona_guidance_zh (persona : StudentPersona) : String :=
  "\n"
    ++ "            要維持的人格特徵：\n"
    ++ "            - 概念準備度：" ++ (toString persona.conceptual_readiness) ++ "/10\n"
    ++ "            - 後設認知意識：" ++ (toString persona.metacognitive_awareness) ++ "/10  \n"
    ++ "            - 堅持度：" ++ (toString persona.persistence) ++ "/10\n"
    ++ "            - 溝通風格：" ++ persona.communication_style ++ "\n"
    ++ "            - 信心水平：" ++ (toString persona.confidence_level) ++ "/10\n"
    ++ "            \n"
    ++ "            行為一致性：\n"
    ++ "            - 信心 " ++ (toString persona.confidence_level) ++ "/10：" ++ (confidence_directive_zh persona.confidence_level) ++ "\n"
    ++ "            - 堅持度 " ++ (toString persona.persistence) ++ "/10：" ++ (persistence_directive_zh persona.persistence) ++ "\n"
    ++ "            - 後設認知 " ++ (toString persona.metacognitive_awareness) ++ "/10：" ++ (metacognitive_directive_zh persona.metacognitive_awareness) ++ "\n"
    ++ "            - 溝通：" ++ (communication_directive_zh persona.communication_style) ++ "\n"
    ++ "            "

/-- Traditional-Chinese student-turn response template (lines 426-453). -/
def response_template_zh (student_name performance_level topic background misconception practice_question persona_guidance context teacher_message difficulty : String) : String :=
  "\n"
    ++ "            你正在扮演 " ++ student_name ++ "，他是一個在 " ++ topic ++ " 方面表現" ++ performance_level ++ "的學生。\n"
    ++ "\n"
    ++ "            你的背景：" ++ background ++ "\n"
    ++ "            你的具體誤解：" ++ misconception ++ "\n"
    ++ "            原始練習問題：" ++ practice_question ++ "\n"
    ++ "            \n"
    ++ "            " ++ persona_guidance ++ "\n"
    ++ "\n"
    ++ "            最近的對話：\n"
    ++ "            " ++ context ++ "\n"
    ++ "\n"
    ++ "            老師剛剛問：「" ++ teacher_message ++ "」\n"
    ++ "\n"
    ++ "            重要回應指導：\n"
    ++ "            1. 你的回應應該是有推理的，從你的角度來說是邏輯性的\n"
    ++ "            2. 展示你的思考過程 - 解釋為什麼你認為某事是正確的\n"
    ++ "            3. 你的誤解應該導致一致的、邏輯性的（但錯誤的）推理\n"
    ++ "            4. 不要只是給出隨機的錯誤答案 - 給出基於你的誤解而有意義的答案\n"
    ++ "            5. 在整個過程中保持你的人格特徵\n"
    ++ "            6. 如果老師要求你解釋，逐步展示你的推理\n"
    ++ "            7. 如果問及原始問題，請參考你基於誤解的理解\n"
    ++ "            \n"
    ++ "            像這個學生一樣回應，展示你基於誤解的推理和人格特徵。\n"
    ++ "            保持對話性和適合" ++ difficulty ++ "難度的年齡。\n"
    ++ "            \n"
    ++ "            僅回覆學生的回應，不要其他文字或格式。\n"
    ++ "            "

/-- English persona guidance f-string of `generate_student_response` (lines 455-468). -/
def persona_guidance_en (persona : StudentPersona) : String :=
  "\n"
    ++ "            PERSONA CHARACTERISTICS TO MAINTAIN:\n"
    ++ "            - Conceptual Readiness: " ++ (toString persona.conceptual_readiness) ++ "/10\n"
    ++ "            - Metacognitive Awareness: " ++ (toString persona.metacognitive_awareness) ++ "/10  \n"
    ++ "            - Persistence: " ++ (toString persona.persistence) ++ "/10\n"
    ++ "            - Communication Style: " ++ persona.communication_style ++ "\n"
    ++ "            - Confidence Level: " ++ (toString persona.confidence_level) ++ "/10\n"
    ++ "            \n"
    ++ "            BEHAVIORAL CONSISTENCY:\n"
    ++ "            - Confidence " ++ (toString persona.confidence_level) ++ "/10: " ++ (confidence_directive persona.confidence_level) ++ "\n"
    ++ "            - Persistence " ++ (toString persona.persistence) ++ "/10: " ++ (persistence_directive persona.persistence) ++ "\n"
    ++ "            - Metacognitive " ++ (toString persona.metacognitive_awareness) ++ "/10: " ++ (metacognitive_directive persona.metacognitive_awareness) ++ "\n"
    ++ "            - Communication: " ++ (communication_directive persona.communication_style) ++ "\n"
    ++ "            "

/-- English student-turn response template (lines 470-497). -/
def response_template_en (student_name performance_level topic background misconception practice_question persona_guidance context teacher_message difficulty : String) : String :=
  "\n"
    ++ "            You are roleplaying as " ++ student_name ++ " who is " ++ performance_level ++ " in " ++ topic ++ ".\n"
    ++ "\n"
    ++ "            Your Background: " ++ background ++ "\n"
    ++ "            Your Specific Misconception: " ++ misconception ++ "\n"
    ++ "            Original Practice Question: " ++ practice_question ++ "\n"
    ++ "            \n"
    ++ "            " ++ persona_guidance ++ "\n"
    ++ "\n"
    ++ "            Recent conversation:\n"
    ++ "            " ++ context ++ "\n"
    ++ "\n"
    ++ "            The teacher just asked: \"" ++ teacher_message ++ "\"\n"
    ++ "\n"
    ++ "            IMPORTANT RESPONSE GUIDELINES:\n"
    ++ "            1. Your responses should be REASONED and logical from your perspective\n"
    ++ "            2. Show your thinking process - explain WHY you think something is correct\n"
    ++ "            3. Your misconception should lead to consistent, logical (but wrong) reasoning\n"
    ++ "            4. Don\x27t just give random wrong answers - give answers that make sense given your misconception\n"
    ++ "            5. Stay true to your persona characteristics throughout\n"
    ++ "            6. If the teacher asks you to explain, show your reasoning step by step\n"
    ++ "            7. If asked about the original question, refer back to your misconception-based understanding\n"
    ++ "            \n"
    ++ "            Respond as this student would, showing both your misconception-based reasoning AND your persona traits.\n"
    ++ "            Keep responses conversational and age-appropriate for " ++ difficulty ++ " level.\n"
    ++ "            \n"
    ++ "            Return ONLY the student\x27s response, no other text or formatting.\n"
    ++ "            "

/-- Traditional-Chinese session-evaluation template (lines 543-581). -/
def evaluation_template_zh (actual_misconception teacher_diagnosis correct_diagnosis_text intervention strategy_context chat_text correct_diagnosis_json : String) : String :=
  "\n"
    ++ "            評估這次教學會話：\n"
    ++ "            \n"
    ++ "            學生的實際誤解：" ++ actual_misconception ++ "\n"
    ++ "            教師的診斷：" ++ teacher_diagnosis ++ "\n"
    ++ "            正確診斷：" ++ correct_diagnosis_text ++ "\n"
    ++ "            \n"
    ++ "            教師的介入：" ++ intervention ++ "\n"
    ++ "            " ++ strategy_context ++ "\n"
    ++ "            \n"
    ++ "            聊天記錄：\n"
    ++ "            " ++ chat_text ++ "\n"
    ++ "            \n"
    ++ "            以這個JSON格式提供評估：\n"
    ++ "            \x7b" ++ "\n"
    ++ "                \"correctDiagnosis\": " ++ correct_diagnosis_json ++ ",\n"
    ++ "                \"score\": 85,\n"
    ++ "                \"questioningScore\": 8,\n"
    ++ "                \"correctMisconception\": \"學生的實際誤解\",\n"
    ++ "                \"feedback\": \"對教師表現的詳細反饋，包括問題質量、診斷準確性和介入有效性\",\n"
    ++ "                \"improvements\": [\"具體建議1\", \"具體建議2\", \"具體建議3\"]\n"
    ++ "            \x7d" ++ "\n"
    ++ "            \n"
    ++ "            根據以下標準評分0-100分：\n"
    ++ "            - 診斷準確性（35分）\n"
    ++ "            - 問題質量（30分）\n"
    ++ "            - 介入有效性（25分）\n"
    ++ "            - 教學策略運用（10分）\n"
    ++ "            \n"
    ++ "            問題評分（1-10分）基於：\n"
    ++ "            - 揭示學生思維的探索性問題\n"
    ++ "            - 從一般到具體的發展\n"
    ++ "            - 避免誘導性問題\n"
    ++ "            - 鼓勵學生推理\n"
    ++ "            \n"
    ++ "            在評估中考慮所使用的教學策略（如有）。\n"
    ++ "            \n"
    ++ "            僅回覆有效的JSON，不要其他文字或markdown格式。\n"
    ++ "            "

/-- English session-evaluation template (lines 584-622). -/
def evaluation_template_en (actual_misconception teacher_diagnosis correct_diagnosis_text intervention strategy_context chat_text correct_diagnosis_json : String) : String :=
  "\n"
    ++ "            Evaluate this teaching session:\n"
    ++ "            \n"
    ++ "            Student\x27s Actual Misconception: " ++ actual_misconception ++ "\n"
    ++ "            Teacher\x27s Diagnosis: " ++ teacher_diagnosis ++ "\n"
    ++ "            Correct Diagnosis: " ++ correct_diagnosis_text ++ "\n"
    ++ "            \n"
    ++ "            Teacher\x27s Intervention: " ++ intervention ++ "\n"
    ++ "            " ++ strategy_context ++ "\n"
    ++ "            \n"
    ++ "            Chat History:\n"
    ++ "            " ++ chat_text ++ "\n"
    ++ "            \n"
    ++ "            Provide evaluation in this JSON format:\n"
    ++ "            \x7b" ++ "\n"
    ++ "                \"correctDiagnosis\": " ++ correct_diagnosis_json ++ ",\n"
    ++ "                \"score\": 85,\n"
    ++ "                \"questioningScore\": 8,\n"
    ++ "                \"correctMisconception\": \"the student\x27s actual misconception\",\n"
    ++ "                \"feedback\": \"detailed feedback on the teacher\x27s performance, including question quality, diagnostic accuracy, and intervention effectiveness\",\n"
    ++ "                \"improvements\": [\"specific suggestion 1\", \"specific suggestion 2\", \"specific suggestion 3\"]\n"
    ++ "            \x7d" ++ "\n"
    ++ "            \n"
    ++ "            Score the session 0-100 based on:\n"
    ++ "            - Diagnostic accuracy (35 points)\n"
    ++ "            - Quality of questioning (30 points) \n"
    ++ "            - Intervention effectiveness (25 points)\n"
    ++ "            - Use of teaching strategies (10 points)\n"
    ++ "            \n"
    ++ "            Questioning score (1-10) based on:\n"
    ++ "            - Probing questions that reveal student thinking\n"
    ++ "            - Progression from general to specific\n"
    ++ "            - Avoiding leading questions\n"
    ++ "            - Encouraging student reasoning\n"
    ++ "            \n"
    ++ "            Consider the teaching strategy used (if any) in your evaluation.\n"
    ++ "            \n"
    ++ "            Return ONLY valid JSON, no other text or markdown formatting.\n"
    ++ "            "
/-! ## Language selection and prompt builders -/

/-- The language-directive helper of GeminiService (simple_app.py lines
121-134): the Chinese block for traditional_chinese, the empty string for any
other language. -/
def get_language_directive (language : String) : String :=
  if language = "traditional_chinese" then chinese_directive_body else ""

/-- Prompt built by `GeminiService.generate_question` (lines 150-214):
language directive followed by the language-selected template. -/
def generate_question_prompt
    (grade_level subject learning_outcomes concepts language : String) : String :=
  get_language_directive language ++
    (if language = "traditional_chinese" then
      question_template_zh grade_level subject learning_outcomes concepts
    else
      question_template_en grade_level subject learning_outcomes concepts)

/-- Prompt built by `GeminiService.generate_scenario` (lines 235-379). -/
def generate_scenario_prompt
    (grade_level subject learning_outcomes concepts question : String)
    (persona : StudentPersona) (language : String) : String :=
  get_language_directive language ++
    (if language = "traditional_chinese" then
      scenario_template_zh grade_level subject learning_outcomes concepts question
        (persona_description_zh persona) persona
    else
      scenario_template_en grade_level subject learning_outcomes concepts question
        (persona_description_en persona) persona)

/-- One iteration of the history-rendering loop (lines 406-407 and 535-536):
append the title-cased sender, a colon and space, the message, and a newline. -/
def context_step (context : String) (msg : ChatMessage) : String :=
  context ++ pyTitle msg.sender ++ ": " ++ msg.message ++ "\n"

/-- Renders a batch of chat messages, in order, starting from the empty
accumulator. -/
def render_history (msgs : List ChatMessage) : String :=
  msgs.foldl context_step ""

/-- Conversation context of `generate_student_response` (lines 404-407):
only the last 6 history entries are rendered. -/
def build_context (chat_history : List ChatMessage) : String :=
  render_history (chat_history.drop (chat_history.length - 6))

/-- Prompt built by `GeminiService.generate_student_response` (lines 392-510). -/
def student_response_prompt (scenario : Scenario) (teacher_message : String)
    (chat_history : List ChatMessage) (language : String) : String :=
  let student := scenario.student
  let persona := scenario.persona
  let context := build_context chat_history
  get_language_directive language ++
    (if language = "traditional_chinese" then
      response_template_zh student.name student.performanceLevel scenario.topic
        student.background student.actualMisconception scenario.practiceQuestion
        (persona_guidance_zh persona) context teacher_message scenario.difficulty
    else
      response_template_en student.name student.performanceLevel scenario.topic
        student.background student.actualMisconception scenario.practiceQuestion
        (persona_guidance_en persona) context teacher_message scenario.difficulty)

/-- Chat transcript of `evaluate_session` (lines 534-536): the whole history,
rendered with the same line format as the conversation context. -/
def chat_text_of (chat_history : List ChatMessage) : String :=
  chat_history.foldl context_step ""

/-- Teacher-turn count of `evaluate_session` (line 529); the source computes
it but never substitutes it into the evaluation template. -/
def teacher_questions_of (chat_history : List ChatMessage) : Nat :=
  (chat_history.filter (fun msg => msg.sender == "teacher")).length

/-- Strategy line of `evaluate_session` (line 538); a falsy strategy (absent
or empty) selects the fallback text. -/
def strategy_context_of (selected_strategy : Option String) : String :=
  if pyTruthy selected_strategy then
    "Selected Teaching Strategy: " ++ selected_strategy.getD ""
  else "No specific strategy selected"

/-- The diagnosis-correctness flag of `evaluate_session` (lines 525-526):
the selected index compared with the scenario field. -/
def correct_diagnosis_of (scenario : Scenario) (selected_misconception : Int) : Bool :=
  selected_misconception == scenario.correctMisconceptionIndex

/-- Python `str(correct_diagnosis).lower()` (line 631). -/
def correct_diagnosis_json (b : Bool) : String :=
  if b then "true" else "false"

/-- English correctness marker of the evaluation prompt (line 583). -/
def correct_diagnosis_text_en (b : Bool) : String :=
  if b then "YES" else "NO"

/-- Chinese correctness marker of the evaluation prompt (line 542). -/
def correct_diagnosis_text_zh (b : Bool) : String :=
  if b then "是" else "否"

/-- Prompt built by `GeminiService.evaluate_session` (lines 531-632), given
the teacher_diagnosis string already looked up from misconceptionOptions. -/
def evaluation_prompt (scenario : Scenario) (selected_misconception : Int)
    (teacher_diagnosis intervention : String) (chat_history : List ChatMessage)
    (selected_strategy : Option String) (language : String) : String :=
  let correct_diagnosis := correct_diagnosis_of scenario selected_misconception
  let chat_text := chat_text_of chat_history
  let strategy_context := strategy_context_of selected_strategy
  get_language_directive language ++
    (if language = "traditional_chinese" then
      evaluation_template_zh scenario.student.actualMisconception teacher_diagnosis
        (correct_diagnosis_text_zh correct_diagnosis) intervention strategy_context
        chat_text (correct_diagnosis_json correct_diagnosis)
    else
      evaluation_template_en scenario.student.actualMisconception teacher_diagnosis
        (correct_diagnosis_text_en correct_diagnosis) intervention strategy_context
        chat_text (correct_diagnosis_json correct_diagnosis))

/-! ## Errors, gateway environment, service operations

Each operation returns its result together with the number of outbound
gateway calls it performed, so that the "call counter stays at zero"
properties of the specification are directly statable. -/

/-- Python exceptions arising in the service layer. -/
inductive PyErr where
  | httpExc (status : Nat) (detail : String)
  | valueError (msg : String)
  | indexError (msg : String)
  | jsonError (msg : String)

/-- Python `str(e)`: an HTTPException renders as its status code, a colon and
space, and its detail (the starlette rendering); the other exceptions render
as their message. -/
def PyErr.str : PyErr → String
  | .httpExc status detail => toString status ++ ": " ++ detail
  | .valueError msg => msg
  | .indexError msg => msg
  | .jsonError msg => msg

/-- Minimal JSON value type: the result of the library routine `json.loads`. -/
inductive JsonValue where
  | null
  | bool (b : Bool)
  | num (n : Int)
  | str (s : String)
  | arr (elems : List JsonValue)
  | obj (fields : List (String × JsonValue))

/-- External environment of the service: the lazily initialised model handle
(absent exactly when no API key is configured), modelled as a pure
text-generation stub, and the `json.loads` library routine. -/
structure Env where
  model : Option (String → String)
  loads : String → Except String JsonValue

/-- Detail of the 503 raised by `_check_api_available` (lines 113-119). -/
def service_unavailable_detail : String :=
  "AI service unavailable. Please check your GOOGLE_API_KEY environment variable."

/-- Message of the ValueError raised at line 233 and of the HTTPException
raised at line 674. -/
def question_required_msg : String :=
  "Question is required for scenario generation"

/-- `GeminiService.generate_question` (lines 150-225): availability check,
prompt construction, one gateway call, fence-stripping, JSON parse. -/
def GeminiService.generate_question (env : Env)
    (grade_level subject learning_outcomes concepts language : String) :
    Except PyErr JsonValue × Nat :=
  match env.model with
  | none => (.error (.httpExc 503 service_unavailable_detail), 0)
  | some generate_content =>
    let prompt := generate_question_prompt grade_level subject learning_outcomes
      concepts language
    let raw := generate_content prompt
    match env.loads (clean_json_response raw) with
    | .ok question_data => (.ok question_data, 1)
    | .error msg => (.error (.jsonError msg), 1)

/-- `GeminiService.generate_scenario` (lines 227-390): availability check
first (line 230), then the mandatory-question check (lines 232-233), then the
gateway call. -/
def GeminiService.generate_scenario (env : Env)
    (grade_level subject learning_outcomes concepts : String)
    (question : Option String) (persona : StudentPersona) (language : String) :
    Except PyErr JsonValue × Nat :=
  match env.model with
  | none => (.error (.httpExc 503 service_unavailable_detail), 0)
  | some generate_content =>
    if pyTruthy question = false then
      (.error (.valueError question_required_msg), 0)
    else
      let prompt := generate_scenario_prompt grade_level subject learning_outcomes
        concepts (question.getD "") persona language
      let raw := generate_content prompt
      match env.loads (clean_json_response raw) with
      | .ok scenario_data => (.ok scenario_data, 1)
      | .error msg => (.error (.jsonError msg), 1)

/-- `GeminiService.generate_student_response` (lines 392-518): availability
check, prompt construction, one gateway call, and the reply is the stripped
raw text (no JSON parse). -/
def GeminiService.generate_student_response (env : Env) (scenario : Scenario)
    (teacher_message : String) (chat_history : List ChatMessage)
    (language : String) : Except PyErr String × Nat :=
  match env.model with
  | none => (.error (.httpExc 503 service_unavailable_detail), 0)
  | some generate_content =>
    let prompt := student_response_prompt scenario teacher_message chat_history language
    (.ok (pyStrip (generate_content prompt)), 1)

/-- `GeminiService.evaluate_session` (lines 520-643): availability check,
then the Python lookup misconceptionOptions[selected] (line 626) whose
failure is an IndexError raised before the gateway call, then the gateway
call and JSON parse. -/
def GeminiService.evaluate_session (env : Env) (scenario : Scenario)
    (selected_misconception : Int) (intervention : String)
    (chat_history : List ChatMessage) (selected_strategy : Option String)
    (language : String) : Except PyErr JsonValue × Nat :=
  match env.model with
  | none => (.error (.httpExc 503 service_unavailable_detail), 0)
  | some generate_content =>
    match pyIndex scenario.misconceptionOptions selected_misconception with
    | none => (.error (.indexError "list index out of range"), 0)
    | some teacher_diagnosis =>
      let prompt := evaluation_prompt scenario selected_misconception
        teacher_diagnosis intervention chat_history selected_strategy language
      let raw := generate_content prompt
      match env.loads (clean_json_response raw) with
      | .ok evaluation => (.ok evaluation, 1)
      | .error msg => (.error (.jsonError msg), 1)

/-! ## HTTP routes (lines 654-717)

Every route wraps its body in a blanket exception handler; since FastAPI
HTTPException is itself an Exception, an HTTPException raised inside the try
block is also caught and re-raised as a 500 wrapping `str(e)`. -/

/-- The `except Exception` handler shared by the four routes. -/
def wrap_route_error {α : Type} (operation : String) :
    Except PyErr α × Nat → Except PyErr α × Nat
  | (.ok v, n) => (.ok v, n)
  | (.error e, n) =>
    (.error (.httpExc 500 ("Failed to " ++ operation ++ ": " ++ e.str)), n)

/-- Route POST /api/generate-question (lines 654-667). -/
def route_generate_question (env : Env) (request : QuestionGenerationRequest) :
    Except PyErr JsonValue × Nat :=
  wrap_route_error "generate question"
    (GeminiService.generate_question env request.gradeLevel request.subject
      request.learningOutcomes request.concepts request.language)

/-- Try-block body of POST /api/generate-scenario (lines 672-685): the route
raises its own 400 when the question is falsy, before calling the service. -/
def generate_scenario_route_body (env : Env) (request : ScenarioRequest) :
    Except PyErr JsonValue × Nat :=
  if pyTruthy request.question = false then
    (.error (.httpExc 400 question_required_msg), 0)
  else
    GeminiService.generate_scenario env request.gradeLevel request.subject
      request.learningOutcomes request.concepts request.question
      request.studentPersona request.language

/-- Route POST /api/generate-scenario (lines 669-687). -/
def route_generate_scenario (env : Env) (request : ScenarioRequest) :
    Except PyErr JsonValue × Nat :=
  wrap_route_error "generate scenario" (generate_scenario_route_body env request)

/-- Route POST /api/student-response (lines 689-701). -/
def route_student_response (env : Env) (request : StudentResponseRequest) :
    Except PyErr String × Nat :=
  wrap_route_error "generate student response"
    (GeminiService.generate_student_response env request.scenario
      request.teacherMessage request.chatHistory request.language)

/-- Route POST /api/evaluate-session (lines 703-717). -/
def route_evaluate_session (env : Env) (request : EvaluationRequest) :
    Except PyErr JsonValue × Nat :=
  wrap_route_error "evaluate session"
    (GeminiService.evaluate_session env request.scenario
      request.selectedMisconception request.intervention request.chatHistory
      request.selectedStrategy request.language)
/-! ## General lemmas about the embedded primitives -/

/-- String concatenation is associative. -/
theorem str_append_assoc (a b c : String) : a ++ b ++ c = a ++ (b ++ c) := by
  cases a with
  | mk la =>
    cases b with
    | mk lb =>
      cases c with
      | mk lc => exact congrArg String.mk (List.append_assoc la lb lc)

/-- The empty string is a left identity for concatenation. -/
theorem empty_str_append (s : String) : "" ++ s = s := by
  cases s with
  | mk l => rfl

/-- The empty string is a right identity for concatenation. -/
theorem str_append_empty (s : String) : s ++ "" = s := by
  cases s with
  | mk l => exact congrArg String.mk (List.append_nil l)

/-- A chain ending at the distinguished factor decomposes around it. -/
theorem decomp_base (p x : String) : ∃ pre post, p ++ x = pre ++ x ++ post :=
  ⟨p, "", by rw [str_append_empty]⟩

/-- Appending on the right preserves a decomposition. -/
theorem decomp_append_right {s x : String} (v : String)
    (h : ∃ pre post, s = pre ++ x ++ post) :
    ∃ pre post, s ++ v = pre ++ x ++ post := by
  obtain ⟨p, q, hs⟩ := h
  exact ⟨p, q ++ v, by rw [hs]; simp [str_append_assoc]⟩

/-- Base case for a two-factor decomposition: the chain ends at the second
factor and the part before it decomposes at the first. -/
theorem decomp2_base {s x : String} (y : String)
    (h : ∃ pre post, s = pre ++ x ++ post) :
    ∃ s1 s2 s3, s ++ y = s1 ++ x ++ s2 ++ y ++ s3 := by
  obtain ⟨p, q, hs⟩ := h
  exact ⟨p, q, "", by rw [hs]; simp [str_append_assoc, str_append_empty]⟩

/-- Appending on the right preserves a two-factor decomposition. -/
theorem decomp2_append_right {s x y : String} (v : String)
    (h : ∃ s1 s2 s3, s = s1 ++ x ++ s2 ++ y ++ s3) :
    ∃ s1 s2 s3, s ++ v = s1 ++ x ++ s2 ++ y ++ s3 := by
  obtain ⟨p, q, r, hs⟩ := h
  exact ⟨p, q, r ++ v, by rw [hs]; simp [str_append_assoc]⟩

/-- The head of a nonempty `dropWhile` result falsifies the predicate. -/
theorem dropWhile_head_false {α : Type} {p : α → Bool} {l : List α} {a : α}
    {as : List α} (h : l.dropWhile p = a :: as) : p a = false := by
  have hm := List.head?_dropWhile_not p l
  rw [h] at hm
  exact hm

/-- `dropWhile` is idempotent. -/
theorem dropWhile_dropWhile {α : Type} (p : α → Bool) (l : List α) :
    (l.dropWhile p).dropWhile p = l.dropWhile p := by
  cases h : l.dropWhile p with
  | nil => rfl
  | cons a as =>
    have hpa : p a = false := dropWhile_head_false h
    exact List.dropWhile_cons_of_neg (by simp [hpa])

/-- A stripped character list has no leading whitespace. -/
theorem stripChars_dropWhile (l : List Char) :
    (stripChars l).dropWhile pyIsSpace = stripChars l := by
  unfold stripChars
  cases hBr : ((l.dropWhile pyIsSpace).reverse.dropWhile pyIsSpace).reverse with
  | nil => rfl
  | cons b bs =>
    have hhead : ((l.dropWhile pyIsSpace).reverse.dropWhile pyIsSpace).reverse.head?
        = some b := by rw [hBr]; rfl
    rw [List.head?_reverse] at hhead
    have hdecomp : (l.dropWhile pyIsSpace).reverse.takeWhile pyIsSpace ++
        (l.dropWhile pyIsSpace).reverse.dropWhile pyIsSpace
        = (l.dropWhile pyIsSpace).reverse :=
      List.takeWhile_append_dropWhile pyIsSpace _
    have hlastA : (l.dropWhile pyIsSpace).reverse.getLast? = some b := by
      rw [← hdecomp, List.getLast?_append, hhead]
      rfl
    have hheadA : (l.dropWhile pyIsSpace).head? = some b := by
      rw [← List.getLast?_reverse]
      exact hlastA
    have hpb : pyIsSpace b = false := by
      have hm := List.head?_dropWhile_not pyIsSpace l
      rw [hheadA] at hm
      exact hm
    exact List.dropWhile_cons_of_neg (by simp [hpb])

/-- Python strip is idempotent. -/
theorem stripChars_idem (l : List Char) : stripChars (stripChars l) = stripChars l := by
  have h1 : (stripChars l).dropWhile pyIsSpace = stripChars l := stripChars_dropWhile l
  show (((stripChars l).dropWhile pyIsSpace).reverse.dropWhile pyIsSpace).reverse
      = stripChars l
  rw [h1]
  show (((((l.dropWhile pyIsSpace).reverse.dropWhile pyIsSpace).reverse).reverse).dropWhile
      pyIsSpace).reverse = stripChars l
  rw [List.reverse_reverse, dropWhile_dropWhile]
  rfl

/-- Python indexing fails exactly outside the Python-valid range. -/
theorem pyIndex_out_of_range {α : Type} (l : List α) (i : Int)
    (h : (l.length : Int) ≤ i ∨ i + l.length < 0) : pyIndex l i = none := by
  unfold pyIndex
  split_ifs with h1 h2
  · exact List.get?_eq_none.mpr (by omega)
  · exfalso
    rcases h with h | h <;> omega
  · rfl

/-! ## Language-collapse lemmas for the four prompt builders -/

/-- A non-Chinese language leaves the question prompt equal to the bare
English template. -/
theorem generate_question_prompt_en (grade_level subject learning_outcomes
    concepts language : String) (h : language ≠ "traditional_chinese") :
    generate_question_prompt grade_level subject learning_outcomes concepts language
      = question_template_en grade_level subject learning_outcomes concepts := by
  unfold generate_question_prompt get_language_directive
  rw [if_neg h, if_neg h, empty_str_append]

/-- The Chinese question prompt is the directive block and Chinese template. -/
theorem generate_question_prompt_zh (grade_level subject learning_outcomes
    concepts language : String) (h : language = "traditional_chinese") :
    generate_question_prompt grade_level subject learning_outcomes concepts language
      = chinese_directive_body ++
        question_template_zh grade_level subject learning_outcomes concepts := by
  unfold generate_question_prompt get_language_directive
  rw [if_pos h, if_pos h]

/-- A non-Chinese language leaves the scenario prompt equal to the bare
English template. -/
theorem generate_scenario_prompt_en (grade_level subject learning_outcomes
    concepts question : String) (persona : StudentPersona) (language : String)
    (h : language ≠ "traditional_chinese") :
    generate_scenario_prompt grade_level subject learning_outcomes concepts question
        persona language
      = scenario_template_en grade_level subject learning_outcomes concepts question
        (persona_description_en persona) persona := by
  unfold generate_scenario_prompt get_language_directive
  rw [if_neg h, if_neg h, empty_str_append]

/-- The Chinese scenario prompt is the directive block and Chinese template. -/
theorem generate_scenario_prompt_zh (grade_level subject learning_outcomes
    concepts question : String) (persona : StudentPersona) (language : String)
    (h : language = "traditional_chinese") :
    generate_scenario_prompt grade_level subject learning_outcomes concepts question
        persona language
      = chinese_directive_body ++
        scenario_template_zh grade_level subject learning_outcomes concepts question
          (persona_description_zh persona) persona := by
  unfold generate_scenario_prompt get_language_directive
  rw [if_pos h, if_pos h]

/-- A non-Chinese language leaves the student-turn prompt equal to the bare
English template. -/
theorem student_response_prompt_en (scenario : Scenario)
    (teacher_message : String) (chat_history : List ChatMessage)
    (language : String) (h : language ≠ "traditional_chinese") :
    student_response_prompt scenario teacher_message chat_history language
      = response_template_en scenario.student.name scenario.student.performanceLevel
        scenario.topic scenario.student.background
        scenario.student.actualMisconception scenario.practiceQuestion
        (persona_guidance_en scenario.persona) (build_context chat_history)
        teacher_message scenario.difficulty := by
  unfold student_response_prompt get_language_directive
  simp only [if_neg h]
  exact empty_str_append _

/-- The Chinese student-turn prompt is the directive block and Chinese
template. -/
theorem student_response_prompt_zh (scenario : Scenario)
    (teacher_message : String) (chat_history : List ChatMessage)
    (language : String) (h : language = "traditional_chinese") :
    student_response_prompt scenario teacher_message chat_history language
      = chinese_directive_body ++
        response_template_zh scenario.student.name scenario.student.performanceLevel
          scenario.topic scenario.student.background
          scenario.student.actualMisconception scenario.practiceQuestion
          (persona_guidance_zh scenario.persona) (build_context chat_history)
          teacher_message scenario.difficulty := by
  unfold student_response_prompt get_language_directive
  simp only [if_pos h]

/-- A non-Chinese language leaves the evaluation prompt equal to the bare
English template. -/
theorem evaluation_prompt_en (scenario : Scenario) (selected_misconception : Int)
    (teacher_diagnosis intervention : String) (chat_history : List ChatMessage)
    (selected_strategy : Option String) (language : String)
    (h : language ≠ "traditional_chinese") :
    evaluation_prompt scenario selected_misconception teacher_diagnosis intervention
        chat_history selected_strategy language
      = evaluation_template_en scenario.student.actualMisconception teacher_diagnosis
        (correct_diagnosis_text_en (correct_diagnosis_of scenario selected_misconception))
        intervention (strategy_context_of selected_strategy)
        (chat_text_of chat_history)
        (correct_diagnosis_json (correct_diagnosis_of scenario selected_misconception)) := by
  unfold evaluation_prompt get_language_directive
  simp only [if_neg h]
  exact empty_str_append _

/-- The Chinese evaluation prompt is the directive block and Chinese
template. -/
theorem evaluation_prompt_zh (scenario : Scenario) (selected_misconception : Int)
    (teacher_diagnosis intervention : String) (chat_history : List ChatMessage)
    (selected_strategy : Option String) (language : String)
    (h : language = "traditional_chinese") :
    evaluation_prompt scenario selected_misconception teacher_diagnosis intervention
        chat_history selected_strategy language
      = chinese_directive_body ++
        evaluation_template_zh scenario.student.actualMisconception teacher_diagnosis
          (correct_diagnosis_text_zh (correct_diagnosis_of scenario selected_misconception))
          intervention (strategy_context_of selected_strategy)
          (chat_text_of chat_history)
          (correct_diagnosis_json (correct_diagnosis_of scenario selected_misconception)) := by
  unfold evaluation_prompt get_language_directive
  simp only [if_pos h]

/-! ## Decompositions of the English templates around substituted fields -/

/-- The English student-turn template contains its persona_guidance argument. -/
theorem response_template_en_guidance_decomp (student_name performance_level
    topic background misconception practice_question persona_guidance context
    teacher_message difficulty : String) :
    ∃ pre post, response_template_en student_name performance_level topic
        background misconception practice_question persona_guidance context
        teacher_message difficulty
      = pre ++ persona_guidance ++ post := by
  unfold response_template_en
  repeat first
    | exact decomp_base _ _
    | apply decomp_append_right

/-- The English student-turn template contains its context argument. -/
theorem response_template_en_context_decomp (student_name performance_level
    topic background misconception practice_question persona_guidance context
    teacher_message difficulty : String) :
    ∃ pre post, response_template_en student_name performance_level topic
        background misconception practice_question persona_guidance context
        teacher_message difficulty
      = pre ++ context ++ post := by
  unfold response_template_en
  repeat first
    | exact decomp_base _ _
    | apply decomp_append_right

/-- The English evaluation template contains the correctness marker followed
by the correctness JSON token. -/
theorem evaluation_template_en_decomp (actual_misconception teacher_diagnosis
    correct_diagnosis_text intervention strategy_context chat_text
    correct_diagnosis_json : String) :
    ∃ s1 s2 s3, evaluation_template_en actual_misconception teacher_diagnosis
        correct_diagnosis_text intervention strategy_context chat_text
        correct_diagnosis_json
      = s1 ++ correct_diagnosis_text ++ s2 ++ correct_diagnosis_json ++ s3 := by
  unfold evaluation_template_en
  repeat first
    | (refine decomp2_base _ ?_
       repeat first
         | exact decomp_base _ _
         | apply decomp_append_right)
    | apply decomp2_append_right

/-- The English persona guidance contains each selected trait directive. -/
theorem persona_guidance_en_decomp (persona : StudentPersona) :
    (∃ pre post, persona_guidance_en persona
        = pre ++ confidence_directive persona.confidence_level ++ post)
    ∧ (∃ pre post, persona_guidance_en persona
        = pre ++ persistence_directive persona.persistence ++ post)
    ∧ (∃ pre post, persona_guidance_en persona
        = pre ++ metacognitive_directive persona.metacognitive_awareness ++ post) := by
  refine ⟨?_, ?_, ?_⟩ <;>
    · unfold persona_guidance_en
      repeat first
        | exact decomp_base _ _
        | apply decomp_append_right

/-! ## Concrete fixtures used by closed evaluation theorems and witnesses -/

/-- Environment with no API key: the model handle is unset. -/
def envNone : Env :=
  { model := none, loads := fun _ => .error "not reached" }

/-- Deterministic gateway stub. -/
def stub_generate : String → String := fun _ => ""

/-- json.loads stub accepting everything. -/
def stub_loads : String → Except String JsonValue := fun _ => .ok (.obj [])

/-- Environment with an initialised model handle. -/
def envStub : Env :=
  { model := some stub_generate, loads := stub_loads }

/-- A concrete student record. -/
def sampleStudent : StudentInfo :=
  { name := "Ava"
    background := "curious fifth grader"
    performanceLevel := "average"
    actualMisconception := "adds denominators when adding fractions"
    initialResponse := "1/2 + 1/4 = 2/6" }

/-- A concrete scenario with four misconception options. -/
def sampleScenario : Scenario :=
  { student := sampleStudent
    misconceptionOptions :=
      ["adds denominators when adding fractions",
       "ignores the numerators",
       "multiplies instead of adding",
       "guesses at random"]
    correctMisconceptionIndex := 0
    topic := "fractions"
    difficulty := "beginner"
    persona := {}
    practiceQuestion := "What is 1/2 + 1/4?" }

/-! ## Claim C1 -/

/-- Claim C1 (code bug evidence).  The claim says that with no API key each
of the four operations returns a 503-equivalent "AI service unavailable"
envelope and the gateway call count stays zero.  In the code the service
layer does raise HTTPException(503, "AI service unavailable...") before any
gateway call, but each route catches it with its blanket exception handler
and re-raises status 500 wrapping the 503 message, so the envelope the
client receives is a 500, not a 503.  This theorem evaluates all four routes
at a failing input: model handle unset, gateway count 0, and the surfaced
envelope is status 500 with the 503 detail embedded in its message. -/
theorem no_api_key_all_routes_surface_wrapped_500 :
    route_generate_question envNone
        { gradeLevel := "5th grade", subject := "Math"
          learningOutcomes := "add fractions with unlike denominators"
          concepts := "common denominators" }
      = (.error (.httpExc 500
          ("Failed to generate question: 503: " ++ service_unavailable_detail)), 0)
    ∧ route_generate_scenario envNone
        { gradeLevel := "5th grade", subject := "Math"
          learningOutcomes := "add fractions with unlike denominators"
          concepts := "common denominators"
          question := some "What is 1/2 + 1/4?" }
      = (.error (.httpExc 500
          ("Failed to generate scenario: 503: " ++ service_unavailable_detail)), 0)
    ∧ route_student_response envNone
        { scenario := sampleScenario, teacherMessage := "Why do you think so?"
          chatHistory := [] }
      = (.error (.httpExc 500
          ("Failed to generate student response: 503: " ++ service_unavailable_detail)), 0)
    ∧ route_evaluate_session envNone
        { scenario := sampleScenario, selectedMisconception := 0
          intervention := "revisit equivalent fractions", chatHistory := [] }
      = (.error (.httpExc 500
          ("Failed to evaluate session: 503: " ++ service_unavailable_detail)), 0) := by
  refine ⟨?_, ?_, ?_, ?_⟩ <;> rfl

/-! ## Claim C2 -/

/-- Claim C2 (code bug evidence).  The claim says a scenario-generation
request with the question missing fails with a 400-equivalent input error,
distinct from the 500-equivalent upstream class.  The route does raise
HTTPException(400, "Question is required for scenario generation"), but it
raises it inside its own try block, whose blanket handler re-raises status
500 wrapping the message — so the client receives the same 500-equivalent
class as upstream errors.  This theorem evaluates the route at the failing
input (API key configured, question absent). -/
theorem missing_question_route_surfaces_wrapped_500 :
    route_generate_scenario envStub
        { gradeLevel := "5th grade", subject := "Math"
          learningOutcomes := "add fractions with unlike denominators"
          concepts := "common denominators" }
      = (.error (.httpExc 500
          "Failed to generate scenario: 400: Question is required for scenario generation"),
         0) := by
  rfl

/-! ## Claim C3 -/

/-- Claim C3: every scenario-generation call with a falsy question (absent or
empty) fails on the missing-question input check before any external model
call is attempted; the gateway call count stays zero.  At the route the
question check precedes the service call, and in the service (with a model
handle present) the ValueError precedes the gateway call. -/
theorem scenario_missing_question_no_gateway_call (env : Env)
    (request : ScenarioRequest) (h : pyTruthy request.question = false) :
    generate_scenario_route_body env request
      = (.error (.httpExc 400 question_required_msg), 0)
    ∧ (route_generate_scenario env request).2 = 0
    ∧ (∀ generate_content, env.model = some generate_content →
        GeminiService.generate_scenario env request.gradeLevel request.subject
          request.learningOutcomes request.concepts request.question
          request.studentPersona request.language
          = (.error (.valueError question_required_msg), 0)) := by
  refine ⟨?_, ?_, ?_⟩
  · simp [generate_scenario_route_body, h]
  · simp [route_generate_scenario, generate_scenario_route_body, h, wrap_route_error]
  · intro generate_content hg
    simp [GeminiService.generate_scenario, hg, h]

/-- Witness for claim C3 at a concrete request whose question is the empty
string (falsy in Python). -/
theorem scenario_missing_question_no_gateway_call_witness :
    generate_scenario_route_body envStub
        { gradeLevel := "8th grade", subject := "Science"
          learningOutcomes := "photosynthesis", concepts := "energy transfer"
          question := some "" }
      = (.error (.httpExc 400 question_required_msg), 0)
    ∧ (route_generate_scenario envStub
        { gradeLevel := "8th grade", subject := "Science"
          learningOutcomes := "photosynthesis", concepts := "energy transfer"
          question := some "" }).2 = 0 := by
  have h := scenario_missing_question_no_gateway_call envStub
    { gradeLevel := "8th grade", subject := "Science"
      learningOutcomes := "photosynthesis", concepts := "energy transfer"
      question := some "" } rfl
  exact ⟨h.1, h.2.1⟩

/-! ## Claim C10 -/

/-- Claim C10: in GeminiService.generate_scenario the service-availability
check runs before the missing-question check: with the model handle unset the
operation fails with the 503 "AI service unavailable" error whatever the
question is, and the missing-question ValueError is raised only when a model
handle is present. -/
theorem scenario_availability_check_precedes_question_check (env : Env)
    (grade_level subject learning_outcomes concepts : String)
    (question : Option String) (persona : StudentPersona) (language : String) :
    (env.model = none →
      GeminiService.generate_scenario env grade_level subject learning_outcomes
          concepts question persona language
        = (.error (.httpExc 503 service_unavailable_detail), 0))
    ∧ (∀ generate_content, env.model = some generate_content →
        pyTruthy question = false →
        GeminiService.generate_scenario env grade_level subject learning_outcomes
          concepts question persona language
        = (.error (.valueError question_required_msg), 0)) := by
  constructor
  · intro h
    simp [GeminiService.generate_scenario, h]
  · intro generate_content hg hq
    simp [GeminiService.generate_scenario, hg, hq]

/-- Witness for claim C10: with no model handle and no question the result is
the 503 availability error, not the input error; with a model handle and no
question it is the ValueError. -/
theorem scenario_availability_check_precedes_question_check_witness :
    GeminiService.generate_scenario envNone "5th grade" "Math" "fractions"
        "denominators" none {} "english"
      = (.error (.httpExc 503 service_unavailable_detail), 0)
    ∧ GeminiService.generate_scenario envStub "5th grade" "Math" "fractions"
        "denominators" none {} "english"
      = (.error (.valueError question_required_msg), 0) := by
  constructor
  · exact (scenario_availability_check_precedes_question_check envNone "5th grade"
      "Math" "fractions" "denominators" none {} "english").1 rfl
  · exact (scenario_availability_check_precedes_question_check envStub "5th grade"
      "Math" "fractions" "denominators" none {} "english").2 stub_generate rfl rfl

/-! ## Claim C9 -/

/-- Claim C9 counterexample.  The claim says every selectedMisconception
outside the valid range of misconceptionOptions makes the diagnosis lookup
raise an index error surfaced as a generic 500.  With four options the valid
range of the list is 0..3, yet selectedMisconception = -1 raises nothing:
Python negative indexing silently selects the last option, the evaluation
proceeds, and the gateway is called once. -/
theorem evaluate_session_negative_index_counterexample :
    ((-1 : Int) < 0
      ∧ sampleScenario.misconceptionOptions.length = 4
      ∧ pyIndex sampleScenario.misconceptionOptions (-1) = some "guesses at random")
    ∧ GeminiService.evaluate_session envStub sampleScenario (-1)
        "revisit equivalent fractions" [] none "english"
      = (.ok (.obj []), 1)
    ∧ route_evaluate_session envStub
        { scenario := sampleScenario, selectedMisconception := -1
          intervention := "revisit equivalent fractions", chatHistory := [] }
      = (.ok (.obj []), 1) := by
  refine ⟨⟨by decide, rfl, rfl⟩, rfl, rfl⟩

/-- Claim C9 as amended: evaluate_session performs no bounds check of its
own; a selectedMisconception outside the Python-valid index range (at least
the length, or below minus the length) raises the unhandled IndexError
before the gateway is called, and the route surfaces it only as the generic
500 "Failed to evaluate session: list index out of range"; indices from
minus the length up to -1, although outside the valid range 0..length-1 of
misconceptionOptions, are accepted silently and select from the end of the
list (see the counterexample). -/
theorem evaluate_session_out_of_range_amended (env : Env)
    (generate_content : String → String) (scenario : Scenario) (selected : Int)
    (intervention : String) (chat_history : List ChatMessage)
    (selected_strategy : Option String) (language : String)
    (hm : env.model = some generate_content)
    (hout : (scenario.misconceptionOptions.length : Int) ≤ selected
      ∨ selected + scenario.misconceptionOptions.length < 0) :
    GeminiService.evaluate_session env scenario selected intervention
        chat_history selected_strategy language
      = (.error (.indexError "list index out of range"), 0)
    ∧ route_evaluate_session env
        { scenario := scenario, selectedMisconception := selected
          intervention := intervention, chatHistory := chat_history
          selectedStrategy := selected_strategy, language := language }
      = (.error (.httpExc 500 "Failed to evaluate session: list index out of range"), 0) := by
  have hidx : pyIndex scenario.misconceptionOptions selected = none :=
    pyIndex_out_of_range _ _ hout
  have hsvc : GeminiService.evaluate_session env scenario selected intervention
      chat_history selected_strategy language
      = (.error (.indexError "list index out of range"), 0) := by
    simp [GeminiService.evaluate_session, hm, hidx]
  refine ⟨hsvc, ?_⟩
  show wrap_route_error "evaluate session"
      (GeminiService.evaluate_session env scenario selected intervention
        chat_history selected_strategy language) = _
  rw [hsvc]
  rfl

/-- Witness for the amended claim C9 at selectedMisconception = 5 against the
four-option sample scenario. -/
theorem evaluate_session_out_of_range_amended_witness :
    GeminiService.evaluate_session envStub sampleScenario 5
        "revisit equivalent fractions" [] none "english"
      = (.error (.indexError "list index out of range"), 0)
    ∧ route_evaluate_session envStub
        { scenario := sampleScenario, selectedMisconception := 5
          intervention := "revisit equivalent fractions", chatHistory := []
          selectedStrategy := none, language := "english" }
      = (.error (.httpExc 500 "Failed to evaluate session: list index out of range"), 0) :=
  evaluate_session_out_of_range_amended envStub stub_generate sampleScenario 5
    "revisit equivalent fractions" [] none "english" rfl (Or.inl (by decide))

/-! ## Claim C4 -/

/-- Claim C4: in the rendered student-turn prompt the hesitant directive is
selected exactly when confidence is at most 3, the assertive directive
exactly when it is at least 8, and the neutral directive for 4..7; the same
threshold rule holds independently for persistence and for metacognitive
awareness; and the persona guidance block carrying the selected directives is
embedded in the rendered English student-turn prompt. -/
theorem persona_threshold_directives :
    (∀ c : Int,
      (confidence_directive c = hesitant_directive ↔ c ≤ 3)
      ∧ (confidence_directive c = assertive_directive ↔ 8 ≤ c)
      ∧ (confidence_directive c = moderate_confidence_directive ↔ 4 ≤ c ∧ c ≤ 7))
    ∧ (∀ p : Int,
      (persistence_directive p = give_up_directive ↔ p ≤ 3)
      ∧ (persistence_directive p = keep_trying_directive ↔ 8 ≤ p)
      ∧ (persistence_directive p = average_persistence_directive ↔ 4 ≤ p ∧ p ≤ 7))
    ∧ (∀ m : Int,
      (metacognitive_directive m = unaware_directive ↔ m ≤ 3)
      ∧ (metacognitive_directive m = aware_directive ↔ 8 ≤ m)
      ∧ (metacognitive_directive m = moderate_metacognitive_directive ↔ 4 ≤ m ∧ m ≤ 7))
    ∧ (∀ persona : StudentPersona,
      (∃ pre post, persona_guidance_en persona
        = pre ++ confidence_directive persona.confidence_level ++ post)
      ∧ (∃ pre post, persona_guidance_en persona
        = pre ++ persistence_directive persona.persistence ++ post)
      ∧ (∃ pre post, persona_guidance_en persona
        = pre ++ metacognitive_directive persona.metacognitive_awareness ++ post))
    ∧ (∀ (scenario : Scenario) (teacher_message : String)
        (chat_history : List ChatMessage), ∃ pre post,
      student_response_prompt scenario teacher_message chat_history "english"
        = pre ++ persona_guidance_en scenario.persona ++ post) := by
  refine ⟨?_, ?_, ?_, fun persona => persona_guidance_en_decomp persona, ?_⟩
  · intro c
    unfold confidence_directive
    split_ifs with h1 h2 <;>
      simp +decide [hesitant_directive, assertive_directive,
        moderate_confidence_directive] <;> omega
  · intro p
    unfold persistence_directive
    split_ifs with h1 h2 <;>
      simp +decide [give_up_directive, keep_trying_directive,
        average_persistence_directive] <;> omega
  · intro m
    unfold metacognitive_directive
    split_ifs with h1 h2 <;>
      simp +decide [unaware_directive, aware_directive,
        moderate_metacognitive_directive] <;> omega
  · intro scenario teacher_message chat_history
    rw [student_response_prompt_en scenario teacher_message chat_history
      "english" (by decide)]
    exact response_template_en_guidance_decomp _ _ _ _ _ _ _ _ _ _

/-- Witness for claim C4 at concrete scores on each side of the thresholds. -/
theorem persona_threshold_directives_witness :
    confidence_directive 2 = hesitant_directive
    ∧ confidence_directive 9 = assertive_directive
    ∧ confidence_directive 5 = moderate_confidence_directive
    ∧ persistence_directive 3 = give_up_directive
    ∧ persistence_directive 8 = keep_trying_directive
    ∧ metacognitive_directive 4 = moderate_metacognitive_directive := by
  refine ⟨?_, ?_, ?_, ?_, ?_, ?_⟩
  · exact (persona_threshold_directives.1 2).1.mpr (by omega)
  · exact (persona_threshold_directives.1 9).2.1.mpr (by omega)
  · exact (persona_threshold_directives.1 5).2.2.mpr (by omega)
  · exact (persona_threshold_directives.2.1 3).1.mpr (by omega)
  · exact (persona_threshold_directives.2.1 8).2.1.mpr (by omega)
  · exact (persona_threshold_directives.2.2.1 4).2.2.mpr (by omega)

/-! ## Claim C7 -/

/-- Claim C7: the conversation context of generate_student_response is built
from at most the last 6 history entries, in their original order, each
rendered as the title-cased sender, a colon and space, and the message;
entries before the last 6 do not influence the context; and the context is
embedded in the rendered English student-turn prompt. -/
theorem context_uses_last_six_entries :
    (∀ (msg : ChatMessage) (chat_history : List ChatMessage),
      6 ≤ chat_history.length →
      build_context (msg :: chat_history) = build_context chat_history)
    ∧ (∀ chat_history : List ChatMessage, chat_history.length ≤ 6 →
      build_context chat_history = render_history chat_history)
    ∧ (∀ chat_history : List ChatMessage,
      (chat_history.drop (chat_history.length - 6)).length ≤ 6
      ∧ chat_history.drop (chat_history.length - 6) <:+ chat_history)
    ∧ (∀ msg : ChatMessage,
      render_history [msg] = pyTitle msg.sender ++ ": " ++ msg.message ++ "\n")
    ∧ (∀ (scenario : Scenario) (teacher_message : String)
        (chat_history : List ChatMessage), ∃ pre post,
      student_response_prompt scenario teacher_message chat_history "english"
        = pre ++ build_context chat_history ++ post) := by
  refine ⟨?_, ?_, ?_, ?_, ?_⟩
  · intro msg chat_history hlen
    unfold build_context
    have hh : (msg :: chat_history).length - 6 = (chat_history.length - 6) + 1 := by
      simp only [List.length_cons]
      omega
    rw [hh, List.drop_succ_cons]
  · intro chat_history hlen
    unfold build_context
    have hz : chat_history.length - 6 = 0 := by omega
    rw [hz, List.drop_zero]
  · intro chat_history
    refine ⟨?_, List.drop_suffix _ _⟩
    simp only [List.length_drop]
    omega
  · intro msg
    simp [render_history, context_step, empty_str_append]
  · intro scenario teacher_message chat_history
    rw [student_response_prompt_en scenario teacher_message chat_history
      "english" (by decide)]
    exact response_template_en_context_decomp _ _ _ _ _ _ _ _ _ _

/-- A seven-message history used by the claim C7 witness. -/
def sampleHistorySix : List ChatMessage :=
  [{ sender := "teacher", message := "m1" },
   { sender := "student", message := "m2" },
   { sender := "teacher", message := "m3" },
   { sender := "student", message := "m4" },
   { sender := "teacher", message := "m5" },
   { sender := "student", message := "m6" }]

/-- Witness for claim C7: dropping the entry before the last six leaves the
context unchanged, and a short history is rendered whole. -/
theorem context_uses_last_six_entries_witness :
    build_context ({ sender := "student", message := "m0" } :: sampleHistorySix)
      = build_context sampleHistorySix
    ∧ build_context [{ sender := "teacher", message := "hi" }]
      = render_history [{ sender := "teacher", message := "hi" }] :=
  ⟨context_uses_last_six_entries.1 _ sampleHistorySix (by decide),
   context_uses_last_six_entries.2.1 _ (by decide)⟩

/-! ## Claim C8 -/

/-- Claim C8: the evaluation prompt substitutes the correctness JSON token
"true" and the marker YES exactly when selectedMisconception equals the
scenario correctMisconceptionIndex, and "false" with NO otherwise; both
substituted tokens are embedded in the rendered English evaluation prompt. -/
theorem evaluation_prompt_correctness_tokens (scenario : Scenario)
    (selected_misconception : Int) (teacher_diagnosis intervention : String)
    (chat_history : List ChatMessage) (selected_strategy : Option String) :
    (correct_diagnosis_json (correct_diagnosis_of scenario selected_misconception)
        = "true" ↔ selected_misconception = scenario.correctMisconceptionIndex)
    ∧ (correct_diagnosis_json (correct_diagnosis_of scenario selected_misconception)
        = "false" ↔ ¬ selected_misconception = scenario.correctMisconceptionIndex)
    ∧ (correct_diagnosis_text_en (correct_diagnosis_of scenario selected_misconception)
        = "YES" ↔ selected_misconception = scenario.correctMisconceptionIndex)
    ∧ (correct_diagnosis_text_en (correct_diagnosis_of scenario selected_misconception)
        = "NO" ↔ ¬ selected_misconception = scenario.correctMisconceptionIndex)
    ∧ (∃ s1 s2 s3,
      evaluation_prompt scenario selected_misconception teacher_diagnosis
          intervention chat_history selected_strategy "english"
        = s1 ++ correct_diagnosis_text_en (correct_diagnosis_of scenario selected_misconception)
          ++ s2 ++ correct_diagnosis_json (correct_diagnosis_of scenario selected_misconception)
          ++ s3) := by
  refine ⟨?_, ?_, ?_, ?_, ?_⟩
  · by_cases hsel : selected_misconception = scenario.correctMisconceptionIndex <;>
      simp +decide [correct_diagnosis_of, correct_diagnosis_json, hsel]
  · by_cases hsel : selected_misconception = scenario.correctMisconceptionIndex <;>
      simp +decide [correct_diagnosis_of, correct_diagnosis_json, hsel]
  · by_cases hsel : selected_misconception = scenario.correctMisconceptionIndex <;>
      simp +decide [correct_diagnosis_of, correct_diagnosis_text_en, hsel]
  · by_cases hsel : selected_misconception = scenario.correctMisconceptionIndex <;>
      simp +decide [correct_diagnosis_of, correct_diagnosis_text_en, hsel]
  · rw [evaluation_prompt_en scenario selected_misconception teacher_diagnosis
      intervention chat_history selected_strategy "english" (by decide)]
    exact evaluation_template_en_decomp _ _ _ _ _ _ _

/-- Witness for claim C8: a matching selection yields the true and YES
tokens, a mismatching one the false and NO tokens. -/
theorem evaluation_prompt_correctness_tokens_witness :
    correct_diagnosis_json (correct_diagnosis_of sampleScenario 0) = "true"
    ∧ correct_diagnosis_text_en (correct_diagnosis_of sampleScenario 0) = "YES"
    ∧ correct_diagnosis_json (correct_diagnosis_of sampleScenario 1) = "false"
    ∧ correct_diagnosis_text_en (correct_diagnosis_of sampleScenario 1) = "NO" := by
  refine ⟨?_, ?_, ?_, ?_⟩
  · exact (evaluation_prompt_correctness_tokens sampleScenario 0 "d" "i" []
      none).1.mpr (by decide)
  · exact (evaluation_prompt_correctness_tokens sampleScenario 0 "d" "i" []
      none).2.2.1.mpr (by decide)
  · exact (evaluation_prompt_correctness_tokens sampleScenario 1 "d" "i" []
      none).2.1.mpr (by decide)
  · exact (evaluation_prompt_correctness_tokens sampleScenario 1 "d" "i" []
      none).2.2.2.1.mpr (by decide)

/-! ## Claim C5 -/

/-- Claim C5: for each of the four operations, requesting language
traditional_chinese selects the Traditional-Chinese template and prepends
the Chinese directive block to the prompt; any other language value
(including the english default) selects the English template with no
directive block prepended. -/
theorem language_selection_all_operations
    (grade_level subject learning_outcomes concepts question : String)
    (persona : StudentPersona) (scenario : Scenario) (teacher_message : String)
    (chat_history : List ChatMessage) (selected_misconception : Int)
    (teacher_diagnosis intervention : String) (selected_strategy : Option String)
    (language : String) :
    (language = "traditional_chinese" →
      generate_question_prompt grade_level subject learning_outcomes concepts language
        = chinese_directive_body ++
          question_template_zh grade_level subject learning_outcomes concepts
      ∧ generate_scenario_prompt grade_level subject learning_outcomes concepts
          question persona language
        = chinese_directive_body ++
          scenario_template_zh grade_level subject learning_outcomes concepts question
            (persona_description_zh persona) persona
      ∧ student_response_prompt scenario teacher_message chat_history language
        = chinese_directive_body ++
          response_template_zh scenario.student.name scenario.student.performanceLevel
            scenario.topic scenario.student.background
            scenario.student.actualMisconception scenario.practiceQuestion
            (persona_guidance_zh scenario.persona) (build_context chat_history)
            teacher_message scenario.difficulty
      ∧ evaluation_prompt scenario selected_misconception teacher_diagnosis
          intervention chat_history selected_strategy language
        = chinese_directive_body ++
          evaluation_template_zh scenario.student.actualMisconception teacher_diagnosis
            (correct_diagnosis_text_zh (correct_diagnosis_of scenario selected_misconception))
            intervention (strategy_context_of selected_strategy)
            (chat_text_of chat_history)
            (correct_diagnosis_json (correct_diagnosis_of scenario selected_misconception)))
    ∧ (language ≠ "traditional_chinese" →
      generate_question_prompt grade_level subject learning_outcomes concepts language
        = question_template_en grade_level subject learning_outcomes concepts
      ∧ generate_scenario_prompt grade_level subject learning_outcomes concepts
          question persona language
        = scenario_template_en grade_level subject learning_outcomes concepts question
          (persona_description_en persona) persona
      ∧ student_response_prompt scenario teacher_message chat_history language
        = response_template_en scenario.student.name scenario.student.performanceLevel
          scenario.topic scenario.student.background
          scenario.student.actualMisconception scenario.practiceQuestion
          (persona_guidance_en scenario.persona) (build_context chat_history)
          teacher_message scenario.difficulty
      ∧ evaluation_prompt scenario selected_misconception teacher_diagnosis
          intervention chat_history selected_strategy language
        = evaluation_template_en scenario.student.actualMisconception teacher_diagnosis
          (correct_diagnosis_text_en (correct_diagnosis_of scenario selected_misconception))
          intervention (strategy_context_of selected_strategy)
          (chat_text_of chat_history)
          (correct_diagnosis_json (correct_diagnosis_of scenario selected_misconception))) := by
  constructor
  · intro h
    exact ⟨generate_question_prompt_zh _ _ _ _ _ h,
      generate_scenario_prompt_zh _ _ _ _ _ _ _ h,
      student_response_prompt_zh _ _ _ _ h,
      evaluation_prompt_zh _ _ _ _ _ _ _ h⟩
  · intro h
    exact ⟨generate_question_prompt_en _ _ _ _ _ h,
      generate_scenario_prompt_en _ _ _ _ _ _ _ h,
      student_response_prompt_en _ _ _ _ h,
      evaluation_prompt_en _ _ _ _ _ _ _ h⟩

/-- Witness for claim C5 at concrete inputs, for the question and
student-turn operations, in both languages. -/
theorem language_selection_all_operations_witness :
    generate_question_prompt "5th grade" "Math" "fractions" "denominators"
        "traditional_chinese"
      = chinese_directive_body ++
        question_template_zh "5th grade" "Math" "fractions" "denominators"
    ∧ generate_question_prompt "5th grade" "Math" "fractions" "denominators"
        "english"
      = question_template_en "5th grade" "Math" "fractions" "denominators"
    ∧ student_response_prompt sampleScenario "Why?" [] "traditional_chinese"
      = chinese_directive_body ++
        response_template_zh sampleScenario.student.name
          sampleScenario.student.performanceLevel sampleScenario.topic
          sampleScenario.student.background
          sampleScenario.student.actualMisconception
          sampleScenario.practiceQuestion
          (persona_guidance_zh sampleScenario.persona) (build_context [])
          "Why?" sampleScenario.difficulty
    ∧ student_response_prompt sampleScenario "Why?" [] "english"
      = response_template_en sampleScenario.student.name
          sampleScenario.student.performanceLevel sampleScenario.topic
          sampleScenario.student.background
          sampleScenario.student.actualMisconception
          sampleScenario.practiceQuestion
          (persona_guidance_en sampleScenario.persona) (build_context [])
          "Why?" sampleScenario.difficulty := by
  refine ⟨?_, ?_, ?_, ?_⟩
  · exact ((language_selection_all_operations "5th grade" "Math" "fractions"
      "denominators" "q" {} sampleScenario "Why?" [] 0 "d" "i" none
      "traditional_chinese").1 rfl).1
  · exact ((language_selection_all_operations "5th grade" "Math" "fractions"
      "denominators" "q" {} sampleScenario "Why?" [] 0 "d" "i" none
      "english").2 (by decide)).1
  · exact ((language_selection_all_operations "5th grade" "Math" "fractions"
      "denominators" "q" {} sampleScenario "Why?" [] 0 "d" "i" none
      "traditional_chinese").1 rfl).2.2.1
  · exact ((language_selection_all_operations "5th grade" "Math" "fractions"
      "denominators" "q" {} sampleScenario "Why?" [] 0 "d" "i" none
      "english").2 (by decide)).2.2.1

/-! ## Claim C6 -/

/-- Claim C6: on input whose stripped form carries no markdown fence at
either outermost boundary, the fence-stripping normalizer only trims the
surrounding whitespace, and applying it twice equals applying it once. -/
theorem clean_json_unfenced_strip_idem (text : String)
    (h1 : "```".data.isPrefixOf (stripChars text.data) = false)
    (h2 : "```".data.isSuffixOf (stripChars text.data) = false) :
    clean_json_response text = pyStrip text
    ∧ clean_json_response (clean_json_response text) = clean_json_response text := by
  have hjson : ∀ u : List Char, "```".data.isPrefixOf u = false →
      "```json".data.isPrefixOf u = false := by
    intro u hu
    by_contra hc
    have htrue : "```json".data.isPrefixOf u = true := by
      revert hc
      cases "```json".data.isPrefixOf u <;> simp
    have hpre : "```json".data <+: u := List.isPrefixOf_iff_prefix.mp htrue
    have h3 : "```".data <+: "```json".data := ⟨['j', 's', 'o', 'n'], by decide⟩
    have hcontra : ("```".data.isPrefixOf u) = true :=
      List.isPrefixOf_iff_prefix.mpr (h3.trans hpre)
    rw [hu] at hcontra
    exact Bool.false_ne_true hcontra
  have key : ∀ u : List Char,
      "```".data.isPrefixOf (stripChars u) = false →
      "```".data.isSuffixOf (stripChars u) = false →
      cleanJsonChars u = stripChars u := by
    intro u k1 k2
    unfold cleanJsonChars
    simp only [hjson _ k1, k1, k2, Bool.false_eq_true, if_false]
    exact stripChars_idem u
  constructor
  · exact congrArg String.mk (key text.data h1 h2)
  · have hd : cleanJsonChars text.data = stripChars text.data := key text.data h1 h2
    have c1 : "```".data.isPrefixOf (stripChars (stripChars text.data)) = false := by
      rw [stripChars_idem]
      exact h1
    have c2 : "```".data.isSuffixOf (stripChars (stripChars text.data)) = false := by
      rw [stripChars_idem]
      exact h2
    show String.mk (cleanJsonChars (String.mk (cleanJsonChars text.data)).data)
        = String.mk (cleanJsonChars text.data)
    rw [show (String.mk (cleanJsonChars text.data)).data
        = cleanJsonChars text.data from rfl]
    rw [hd, key _ c1 c2, stripChars_idem]

/-- Witness for claim C6 on a whitespace-padded JSON object with no fences. -/
theorem clean_json_unfenced_strip_idem_witness :
    clean_json_response "  \x7b\"a\": 1\x7d  " = pyStrip "  \x7b\"a\": 1\x7d  "
    ∧ clean_json_response (clean_json_response "  \x7b\"a\": 1\x7d  ")
      = clean_json_response "  \x7b\"a\": 1\x7d  " :=
  clean_json_unfenced_strip_idem "  \x7b\"a\": 1\x7d  " (by decide) (by decide)
